import Mathlib

/-!
Shallow embedding of the RouteSync route-estimator functions from
`src/pages/Routes.tsx` (component `Routes`): `calculateDistance` (Haversine),
the distance-threshold route-type classification in `handleSubmit`,
`calculateEstimatedCost` and `calculateEstimatedDuration`.

JavaScript numbers are modelled as real numbers, `Math.round` as
`fun x => ⌊x + 1/2⌋`, `Math.atan2` by its mathematical case analysis, the
optional `distance` parameter and the nullable coordinate state as `Option`,
and JavaScript truthiness of a number (`x || d`) as the test `x = 0`.
-/

namespace RouteSync

noncomputable section

/-- From `deg2rad` in Routes.tsx: `deg * (Math.PI / 180)`. -/
def deg2rad (deg : ℝ) : ℝ := deg * (Real.pi / 180)

/-- JavaScript `Math.atan2 y x` on real arguments. -/
def atan2 (y x : ℝ) : ℝ :=
  if 0 < x then Real.arctan (y / x)
  else if x < 0 then
    (if 0 ≤ y then Real.arctan (y / x) + Real.pi else Real.arctan (y / x) - Real.pi)
  else if 0 < y then Real.pi / 2
  else if y < 0 then -(Real.pi / 2)
  else 0

/-- JavaScript `Math.round x`, i.e. rounding half towards positive infinity. -/
def jsRound (x : ℝ) : ℤ := ⌊x + 1 / 2⌋

/-- JavaScript `x || d` for a possibly-undefined number `x` (`none` models
`undefined`/`NaN`, a present `0` is falsy and also yields `d`). -/
def jsOrNum (x : Option ℝ) (d : ℝ) : ℝ :=
  match x with
  | none => d
  | some v => if v = 0 then d else v

/-- The intermediate value `a` of `calculateDistance` in Routes.tsx:
`sin(dLat/2)·sin(dLat/2) + cos(rad lat1)·cos(rad lat2)·sin(dLon/2)·sin(dLon/2)`. -/
def haversineA (lat1 lon1 lat2 lon2 : ℝ) : ℝ :=
  let dLat := deg2rad (lat2 - lat1)
  let dLon := deg2rad (lon2 - lon1)
  Real.sin (dLat / 2) * Real.sin (dLat / 2) +
    Real.cos (deg2rad lat1) * Real.cos (deg2rad lat2) *
    Real.sin (dLon / 2) * Real.sin (dLon / 2)

/-- From `calculateDistance` in Routes.tsx: Haversine distance in km with
`R = 6371` and `c = 2 · atan2(√a, √(1-a))`. -/
def calculateDistance (lat1 lon1 lat2 lon2 : ℝ) : ℝ :=
  let R : ℝ := 6371
  let a := haversineA lat1 lon1 lat2 lon2
  let c := 2 * atan2 (Real.sqrt a) (Real.sqrt (1 - a))
  R * c

/-- From `handleSubmit` in Routes.tsx: the route type chosen from the computed
distance (`> 5000` air, `> 1000` sea-land, otherwise land). -/
def classifyMode (distance : ℝ) : String :=
  if distance > 5000 then "air"
  else if distance > 1000 then "sea-land"
  else "land"

/-- The `rates` object literal in `calculateEstimatedCost` (USD per km);
`none` models an absent key (JavaScript `undefined`). -/
def rates (type : String) : Option ℝ :=
  if type = "land" then some 1.5
  else if type = "sea-land" then some 2.2
  else if type = "air" then some 3.8
  else if type = "air-land" then some 3.8
  else none

/-- The `speeds` object literal in `calculateEstimatedDuration` (km/h). -/
def speeds (type : String) : Option ℝ :=
  if type = "land" then some 60
  else if type = "sea-land" then some 30
  else if type = "air" then some 800
  else if type = "air-land" then some 800
  else none

/-- The default for the `weight` parameter of `calculateEstimatedCost`:
`Number.parseFloat(formData.weight) || 100`, where `none` models a
non-numeric or empty form value (`parseFloat` returns `NaN`). -/
def defaultWeight (formWeight : Option ℝ) : ℝ := jsOrNum formWeight 100

/-- From `calculateEstimatedCost` in Routes.tsx. The component state
`sourceCoordinates`/`destinationCoordinates` is passed explicitly; the
optional `distance` parameter is `none` when omitted at the call site.
Per JavaScript truthiness, a passed distance of `0` counts as absent both
in the guard and in `distance || calculateDistance(...)`. -/
def calculateEstimatedCost (sourceCoordinates destinationCoordinates : Option (ℝ × ℝ))
    (distance : Option ℝ) (type : String) (weight : ℝ) : Option ℤ :=
  if (distance.getD 0 = 0) ∧ (sourceCoordinates = none ∨ destinationCoordinates = none) then
    none
  else
    let calculatedDistance : ℝ :=
      if distance.getD 0 = 0 then
        match sourceCoordinates, destinationCoordinates with
        | some s, some d => calculateDistance s.1 s.2 d.1 d.2
        | _, _ => 0
      else distance.getD 0
    let baseRate := jsOrNum (rates type) 1.5
    some (jsRound (calculatedDistance * baseRate * (weight / 100)))

/-- The arithmetic tail of `calculateEstimatedCost` once a distance is in
hand: `Math.round(calculatedDistance * baseRate * (weight / 100))` with
`baseRate = rates[type] || rates.land`. -/
def estimateCost (distanceKm : ℝ) (mode : String) (weightKg : ℝ) : ℤ :=
  jsRound (distanceKm * jsOrNum (rates mode) 1.5 * (weightKg / 100))

/-- The arithmetic tail of `calculateEstimatedDuration`:
`Math.round(distance / speed)` with `speed = speeds[routeType] || speeds.land`. -/
def estimateDuration (distanceKm : ℝ) (mode : String) : ℤ :=
  jsRound (distanceKm / jsOrNum (speeds mode) 60)

/-- From `calculateEstimatedDuration` in Routes.tsx. It reads the coordinate
state and the `routeType` state; it takes no distance parameter. -/
def calculateEstimatedDuration (sourceCoordinates destinationCoordinates : Option (ℝ × ℝ))
    (routeType : String) : Option ℤ :=
  match sourceCoordinates, destinationCoordinates with
  | some s, some d =>
      some (estimateDuration (calculateDistance s.1 s.2 d.1 d.2) routeType)
  | _, _ => none

end

/-! ## Helper lemmas -/

theorem atan2_sqrt_nonneg (a : ℝ) : 0 ≤ atan2 (Real.sqrt a) (Real.sqrt (1 - a)) := by
  unfold atan2
  split_ifs with h1 h2 h3 h4 h5
  · have hy : 0 ≤ Real.sqrt a / Real.sqrt (1 - a) :=
      div_nonneg (Real.sqrt_nonneg a) (le_of_lt h1)
    calc (0:ℝ) = Real.arctan 0 := Real.arctan_zero.symm
    _ ≤ _ := Real.arctan_strictMono.monotone hy
  · exact absurd h2 (not_lt.mpr (Real.sqrt_nonneg _))
  · exact absurd h2 (not_lt.mpr (Real.sqrt_nonneg _))
  · linarith [Real.pi_pos]
  · exact absurd h5 (not_lt.mpr (Real.sqrt_nonneg _))
  · exact le_refl 0

theorem calculateDistance_nonneg (lat1 lon1 lat2 lon2 : ℝ) :
    0 ≤ calculateDistance lat1 lon1 lat2 lon2 := by
  have h := atan2_sqrt_nonneg (haversineA lat1 lon1 lat2 lon2)
  simp only [calculateDistance]
  linarith

theorem jsRound_nonneg {x : ℝ} (hx : 0 ≤ x) : 0 ≤ jsRound x := by
  unfold jsRound
  exact Int.le_floor.mpr (by push_cast; linarith)

theorem jsOrNum_rates_pos (t : String) : 0 < jsOrNum (rates t) 1.5 := by
  unfold rates
  split_ifs <;> norm_num [jsOrNum]

theorem jsOrNum_speeds_pos (t : String) : 0 < jsOrNum (speeds t) 60 := by
  unfold speeds
  split_ifs <;> norm_num [jsOrNum]


theorem sin_poly_bounds {x lo hi M : ℝ} (h1 : lo ≤ x) (h2 : x ≤ hi) (h3 : -M ≤ lo)
    (h4 : hi ≤ M) (h5 : M ≤ 1) :
    lo - lo^3/6 - M^4*(5/96) ≤ Real.sin x ∧ Real.sin x ≤ hi - hi^3/6 + M^4*(5/96) := by
  have hM0 : 0 ≤ M := by nlinarith
  have habs : |x| ≤ M := abs_le.mpr ⟨by linarith, by linarith⟩
  have habs1 : |x| ≤ 1 := le_trans habs h5
  have hb := abs_le.mp (Real.sin_bound habs1)
  have hx4 : |x|^4 ≤ M^4 := pow_le_pow_left₀ (abs_nonneg x) habs 4
  have hxsq : x^2 ≤ 1 := by nlinarith [sq_abs x, abs_nonneg x]
  have hlosq : lo^2 ≤ 1 := by nlinarith
  have hhisq : hi^2 ≤ 1 := by nlinarith
  constructor
  · have hS : x^2 + x*lo + lo^2 ≤ 3 := by nlinarith [sq_nonneg (x - lo)]
    have hkey : 0 ≤ (x - lo) * (6 - (x^2 + x*lo + lo^2)) :=
      mul_nonneg (by linarith) (by linarith)
    have hexp : x - x^3/6 - (lo - lo^3/6) = (x - lo) * (6 - (x^2 + x*lo + lo^2)) / 6 := by ring
    linarith [hb.1]
  · have hS : hi^2 + hi*x + x^2 ≤ 3 := by nlinarith [sq_nonneg (hi - x)]
    have hkey : 0 ≤ (hi - x) * (6 - (hi^2 + hi*x + x^2)) :=
      mul_nonneg (by linarith) (by linarith)
    have hexp : hi - hi^3/6 - (x - x^3/6) = (hi - x) * (6 - (hi^2 + hi*x + x^2)) / 6 := by ring
    linarith [hb.2]

theorem cos_eq_one_sub_two_sin_sq (x : ℝ) : Real.cos (2 * x) = 1 - 2 * Real.sin x ^ 2 := by
  rw [Real.cos_two_mul]
  linear_combination 2 * Real.sin_sq_add_cos_sq x

theorem cos_double_bounds (clo chi : ℝ) {u slo shi : ℝ} (hs1 : slo ≤ Real.sin u)
    (hs2 : Real.sin u ≤ shi) (h0 : 0 ≤ slo) (h5 : clo ≤ 1 - 2*shi^2) (h6 : 1 - 2*slo^2 ≤ chi) :
    clo ≤ Real.cos (2*u) ∧ Real.cos (2*u) ≤ chi := by
  rw [cos_eq_one_sub_two_sin_sq]
  constructor <;> nlinarith

theorem sin_double_bounds (lo hi : ℝ) {u slo shi clo chi : ℝ} (hs1 : slo ≤ Real.sin u)
    (hs2 : Real.sin u ≤ shi) (hc1 : clo ≤ Real.cos u) (hc2 : Real.cos u ≤ chi)
    (h0s : 0 ≤ slo) (h0c : 0 ≤ clo) (h5 : lo ≤ 2*slo*clo) (h6 : 2*shi*chi ≤ hi) :
    lo ≤ Real.sin (2*u) ∧ Real.sin (2*u) ≤ hi := by
  rw [Real.sin_two_mul]
  have hsin0 : 0 ≤ Real.sin u := le_trans h0s hs1
  have hcos0 : 0 ≤ Real.cos u := le_trans h0c hc1
  constructor
  · nlinarith [mul_nonneg (sub_nonneg.mpr hs1) hcos0, mul_nonneg h0s (sub_nonneg.mpr hc1)]
  · nlinarith [mul_nonneg (sub_nonneg.mpr hs2) (le_trans hcos0 hc2),
      mul_nonneg hsin0 (sub_nonneg.mpr hc2)]

theorem sin_pi_mul_bounds (q dlo dhi slo shi : ℝ) (hq : 0 ≤ q)
    (h1 : dlo ≤ q * 3.141592) (h2 : q * 3.141593 ≤ dhi)
    (h3 : 0 ≤ dlo) (h4 : dhi ≤ 1)
    (h5 : slo ≤ dlo - dlo^3/6 - dhi^4*(5/96)) (h6 : dhi - dhi^3/6 + dhi^4*(5/96) ≤ shi) :
    slo ≤ Real.sin (q * Real.pi) ∧ Real.sin (q * Real.pi) ≤ shi := by
  have hx1 : dlo ≤ q * Real.pi := by
    nlinarith [mul_le_mul_of_nonneg_left (le_of_lt Real.pi_gt_d6) hq]
  have hx2 : q * Real.pi ≤ dhi := by
    nlinarith [mul_le_mul_of_nonneg_left (le_of_lt Real.pi_lt_d6) hq]
  have hb := @sin_poly_bounds (q * Real.pi) dlo dhi dhi hx1 hx2 (by linarith) le_rfl h4
  exact ⟨le_trans h5 hb.1, le_trans hb.2 h6⟩

theorem sin_rat_bounds (t slo shi : ℝ) (h3 : 0 ≤ t) (h4 : t ≤ 1)
    (h5 : slo ≤ t - t^3/6 - t^4*(5/96)) (h6 : t - t^3/6 + t^4*(5/96) ≤ shi) :
    slo ≤ Real.sin t ∧ Real.sin t ≤ shi := by
  have hb := @sin_poly_bounds t t t t le_rfl le_rfl (by linarith) le_rfl h4
  exact ⟨le_trans h5 hb.1, le_trans hb.2 h6⟩

theorem mul_interval (lo hi : ℝ) {x y xlo xhi ylo yhi : ℝ} (hx1 : xlo ≤ x) (hx2 : x ≤ xhi)
    (hy1 : ylo ≤ y) (hy2 : y ≤ yhi) (h0x : 0 ≤ xlo) (h0y : 0 ≤ ylo)
    (h5 : lo ≤ xlo*ylo) (h6 : xhi*yhi ≤ hi) : lo ≤ x*y ∧ x*y ≤ hi := by
  constructor
  · calc lo ≤ xlo*ylo := h5
    _ ≤ x*y := mul_le_mul hx1 hy1 h0y (le_trans h0x hx1)
  · calc x*y ≤ xhi*yhi :=
        mul_le_mul hx2 hy2 (le_trans h0y hy1) (le_trans (le_trans h0x hx1) hx2)
    _ ≤ hi := h6

set_option maxHeartbeats 1000000 in
theorem sinA1_nyla :
    (0.0580912:ℝ) ≤ Real.sin ((11101/600000) * Real.pi) ∧
    Real.sin ((11101/600000) * Real.pi) ≤ 0.0580927 :=
  sin_pi_mul_bounds (11101/600000) 0.0581246 0.0581248 0.0580912 0.0580927
    (by norm_num) (by norm_num) (by norm_num) (by norm_num) (by norm_num) (by norm_num) (by norm_num)

set_option maxHeartbeats 1000000 in
theorem S2_nyla :
    (0.3763817:ℝ) ≤ Real.sin ((49153/400000) * Real.pi) ∧
    Real.sin ((49153/400000) * Real.pi) ≤ 0.3766676 := by
  have hsA2h := sin_pi_mul_bounds (49153/800000) 0.1930233 0.1930235 0.1917523 0.1918972
    (by norm_num) (by norm_num) (by norm_num) (by norm_num) (by norm_num) (by norm_num) (by norm_num)
  have hsA2q := sin_pi_mul_bounds (49153/1600000) 0.0965116 0.0965118 0.0963572 0.0963665
    (by norm_num) (by norm_num) (by norm_num) (by norm_num) (by norm_num) (by norm_num) (by norm_num)
  have hcA2h := cos_double_bounds 0.9814269 0.9814306 hsA2q.1 hsA2q.2 (by norm_num) (by norm_num) (by norm_num)
  rw [show (2:ℝ) * ((49153/1600000) * Real.pi) = (49153/800000) * Real.pi from by ring] at hcA2h
  have hS2 := sin_double_bounds 0.3763817 0.3766676 hsA2h.1 hsA2h.2 hcA2h.1 hcA2h.2
    (by norm_num) (by norm_num) (by norm_num) (by norm_num)
  rw [show (2:ℝ) * ((49153/800000) * Real.pi) = (49153/400000) * Real.pi from by ring] at hS2
  exact hS2

set_option maxHeartbeats 1000000 in
theorem c1_nyla :
    (0.7578494:ℝ) ≤ Real.cos ((50891/225000) * Real.pi) ∧
    Real.cos ((50891/225000) * Real.pi) ≤ 0.7581358 := by
  have hsR1q := sin_pi_mul_bounds (50891/900000) 0.177643 0.1776432 0.1766568 0.1767608
    (by norm_num) (by norm_num) (by norm_num) (by norm_num) (by norm_num) (by norm_num) (by norm_num)
  have hsR1e := sin_pi_mul_bounds (50891/1800000) 0.0888215 0.0888216 0.0887014 0.0887081
    (by norm_num) (by norm_num) (by norm_num) (by norm_num) (by norm_num) (by norm_num) (by norm_num)
  have hcR1q := cos_double_bounds 0.9842617 0.9842642 hsR1e.1 hsR1e.2 (by norm_num) (by norm_num) (by norm_num)
  rw [show (2:ℝ) * ((50891/1800000) * Real.pi) = (50891/900000) * Real.pi from by ring] at hcR1q
  have hsR1h := sin_double_bounds 0.347753 0.3479587 hsR1q.1 hsR1q.2 hcR1q.1 hcR1q.2
    (by norm_num) (by norm_num) (by norm_num) (by norm_num)
  rw [show (2:ℝ) * ((50891/900000) * Real.pi) = (50891/450000) * Real.pi from by ring] at hsR1h
  have hc1 := cos_double_bounds 0.7578494 0.7581358 hsR1h.1 hsR1h.2 (by norm_num) (by norm_num) (by norm_num)
  rw [show (2:ℝ) * ((50891/450000) * Real.pi) = (50891/225000) * Real.pi from by ring] at hc1
  exact hc1

set_option maxHeartbeats 1000000 in
theorem c2_nyla :
    (0.82847:ℝ) ≤ Real.cos ((170261/900000) * Real.pi) ∧
    Real.cos ((170261/900000) * Real.pi) ≤ 0.8285885 := by
  have hsR2q := sin_pi_mul_bounds (170261/3600000) 0.1485807 0.1485808 0.1480086 0.1480595
    (by norm_num) (by norm_num) (by norm_num) (by norm_num) (by norm_num) (by norm_num) (by norm_num)
  have hsR2e := sin_pi_mul_bounds (170261/7200000) 0.0742903 0.0742904 0.0742203 0.0742237
    (by norm_num) (by norm_num) (by norm_num) (by norm_num) (by norm_num) (by norm_num) (by norm_num)
  have hcR2q := cos_double_bounds 0.9889816 0.9889827 hsR2e.1 hsR2e.2 (by norm_num) (by norm_num) (by norm_num)
  rw [show (2:ℝ) * ((170261/7200000) * Real.pi) = (170261/3600000) * Real.pi from by ring] at hcR2q
  have hsR2h := sin_double_bounds 0.2927555 0.2928566 hsR2q.1 hsR2q.2 hcR2q.1 hcR2q.2
    (by norm_num) (by norm_num) (by norm_num) (by norm_num)
  rw [show (2:ℝ) * ((170261/3600000) * Real.pi) = (170261/1800000) * Real.pi from by ring] at hsR2h
  have hc2 := cos_double_bounds 0.82847 0.8285885 hsR2h.1 hsR2h.2 (by norm_num) (by norm_num) (by norm_num)
  rw [show (2:ℝ) * ((170261/1800000) * Real.pi) = (170261/900000) * Real.pi from by ring] at hc2
  exact hc2

set_option maxHeartbeats 1000000 in
theorem haversineA_nyla_bounds :
    0.0923184 ≤ haversineA 40.7128 (-74.0060) 34.0522 (-118.2437) ∧
    haversineA 40.7128 (-74.0060) 34.0522 (-118.2437) ≤ 0.0925005 := by
  have hsA1 := sinA1_nyla
  have hS2 := S2_nyla
  have hc1 := c1_nyla
  have hc2 := c2_nyla
  have h12 := mul_interval 0.6278554 0.6281827 hc1.1 hc1.2 hc2.1 hc2.2
    (by norm_num) (by norm_num) (by norm_num) (by norm_num)
  have hS2sq := mul_interval 0.1416631 0.1418785 hS2.1 hS2.2 hS2.1 hS2.2
    (by norm_num) (by norm_num) (by norm_num) (by norm_num)
  have hs1sq := mul_interval 0.0033745 0.0033748 hsA1.1 hsA1.2 hsA1.1 hsA1.2
    (by norm_num) (by norm_num) (by norm_num) (by norm_num)
  have hprod := mul_interval 0.0889439 0.0891257 h12.1 h12.2 hS2sq.1 hS2sq.2
    (by norm_num) (by norm_num) (by norm_num) (by norm_num)
  have e1 : deg2rad (34.0522 - 40.7128) / 2 = -((11101/600000) * Real.pi) := by
    unfold deg2rad
    have h : (34.0522 - 40.7128 : ℝ) / 180 / 2 = -(11101/600000) := by norm_num
    calc (34.0522 - 40.7128 : ℝ) * (Real.pi / 180) / 2
        = ((34.0522 - 40.7128 : ℝ) / 180 / 2) * Real.pi := by ring
      _ = -(11101/600000) * Real.pi := by rw [h]
      _ = -((11101/600000) * Real.pi) := by ring
  have e2 : deg2rad (-118.2437 - -74.0060) / 2 = -((49153/400000) * Real.pi) := by
    unfold deg2rad
    have h : (-118.2437 - -74.0060 : ℝ) / 180 / 2 = -(49153/400000) := by norm_num
    calc (-118.2437 - -74.0060 : ℝ) * (Real.pi / 180) / 2
        = ((-118.2437 - -74.0060 : ℝ) / 180 / 2) * Real.pi := by ring
      _ = -(49153/400000) * Real.pi := by rw [h]
      _ = -((49153/400000) * Real.pi) := by ring
  have e3 : deg2rad 40.7128 = (50891/225000) * Real.pi := by
    unfold deg2rad
    have h : (40.7128 : ℝ) / 180 = 50891/225000 := by norm_num
    calc (40.7128 : ℝ) * (Real.pi / 180) = ((40.7128 : ℝ) / 180) * Real.pi := by ring
      _ = (50891/225000) * Real.pi := by rw [h]
  have e4 : deg2rad 34.0522 = (170261/900000) * Real.pi := by
    unfold deg2rad
    have h : (34.0522 : ℝ) / 180 = 170261/900000 := by norm_num
    calc (34.0522 : ℝ) * (Real.pi / 180) = ((34.0522 : ℝ) / 180) * Real.pi := by ring
      _ = (170261/900000) * Real.pi := by rw [h]
  simp only [haversineA]
  rw [e1, e2, e3, e4]
  simp only [Real.sin_neg]
  constructor <;> nlinarith [hs1sq.1, hs1sq.2, hprod.1, hprod.2]

/-! ## Claims -/

/-- C1: `classifyMode` is deterministic thresholding on distance: above 5000 km
the route is air, above 1000 km and up to 5000 km sea-land, and up to 1000 km
land; the boundary values 999, 1000, 1000.01, 5000, 5000.01 classify as land,
land, sea-land, sea-land, air respectively. -/
theorem classifyMode_threshold_rules :
    (∀ d : ℝ, (5000 < d → classifyMode d = "air") ∧
      (1000 < d → d ≤ 5000 → classifyMode d = "sea-land") ∧
      (d ≤ 1000 → classifyMode d = "land")) ∧
    classifyMode 999 = "land" ∧ classifyMode 1000 = "land" ∧
    classifyMode 1000.01 = "sea-land" ∧ classifyMode 5000 = "sea-land" ∧
    classifyMode 5000.01 = "air" := by
  refine ⟨fun d => ⟨fun h1 => ?_, fun h2 h3 => ?_, fun h4 => ?_⟩, ?_, ?_, ?_, ?_, ?_⟩
  · unfold classifyMode
    rw [if_pos h1]
  · unfold classifyMode
    rw [if_neg (not_lt.mpr h3), if_pos h2]
  · unfold classifyMode
    rw [if_neg (not_lt.mpr (le_trans h4 (by norm_num))), if_neg (not_lt.mpr h4)]
  all_goals norm_num [classifyMode]

/-- Witness for C1: 6000 km classifies as air. -/
theorem classifyMode_threshold_rules_witness : classifyMode 6000 = "air" :=
  (classifyMode_threshold_rules.1 6000).1 (by norm_num)

/-- C2 counterexample: called with the distance argument exactly 0 (and no
coordinate state), `calculateEstimatedCost` returns `none`, not the rounded
cost 0 that the formula `round(d · baseRate · (w/100))` prescribes at `d = 0`. -/
theorem estimateCost_zero_distance_counterexample :
    calculateEstimatedCost none none (some 0) "air" 100 = none ∧
    calculateEstimatedCost none none (some 0) "air" 100 ≠
      some (jsRound ((0 : ℝ) * 3.8 * (100 / 100))) := by
  constructor <;> simp [calculateEstimatedCost]

/-- C2 (amended to nonzero distances): for every nonzero distance `d`, every
weight `w` and any coordinate state, `calculateEstimatedCost` returns
`round(d · baseRate[mode] · (w/100))` with the rate table
land 1.5, sea-land 2.2, air 3.8 USD/km; the weight defaults to 100 when the
form value is unspecified or non-numeric; in particular the cost for 1000 km
by air at 100 kg is 3800. -/
theorem estimateCost_formula :
    (∀ (src dst : Option (ℝ × ℝ)) (d w : ℝ), d ≠ 0 →
      calculateEstimatedCost src dst (some d) "land" w = some (jsRound (d * 1.5 * (w / 100))) ∧
      calculateEstimatedCost src dst (some d) "sea-land" w =
        some (jsRound (d * 2.2 * (w / 100))) ∧
      calculateEstimatedCost src dst (some d) "air" w = some (jsRound (d * 3.8 * (w / 100)))) ∧
    defaultWeight none = 100 ∧
    calculateEstimatedCost none none (some 1000) "air" 100 = some 3800 := by
  refine ⟨fun src dst d w hd => ⟨?_, ?_, ?_⟩, rfl, ?_⟩
  · simp [calculateEstimatedCost, rates, jsOrNum, hd]
  · simp [calculateEstimatedCost, rates, jsOrNum, hd]
    norm_num
  · simp [calculateEstimatedCost, rates, jsOrNum, hd]
    norm_num
  · have h : (1000:ℝ) * 3.8 * (100 / 100) + 1 / 2 = 3800.5 := by norm_num
    simp [calculateEstimatedCost, rates, jsOrNum, jsRound, h]
    norm_num [Int.floor_eq_iff]

/-- Witness for C2: the air formula at distance 2. -/
theorem estimateCost_formula_witness :
    calculateEstimatedCost none none (some 2) "air" 100 =
      some (jsRound ((2 : ℝ) * 3.8 * (100 / 100))) :=
  (estimateCost_formula.1 none none 2 100 (by norm_num)).2.2

/-- C3: `calculateEstimatedDuration` rounds distance divided by the mode speed,
with the speed table land 60, sea-land 30, air 800 km/h and the land speed for
any unknown mode; 600 km by land gives 10 hours. -/
theorem estimateDuration_formula :
    (∀ (s d : ℝ × ℝ) (rt : String),
      calculateEstimatedDuration (some s) (some d) rt =
        some (estimateDuration (calculateDistance s.1 s.2 d.1 d.2) rt)) ∧
    (∀ (dk : ℝ) (mode : String),
      estimateDuration dk mode = jsRound (dk / jsOrNum (speeds mode) 60)) ∧
    speeds "land" = some 60 ∧ speeds "sea-land" = some 30 ∧ speeds "air" = some 800 ∧
    (∀ rt, speeds rt = none → jsOrNum (speeds rt) 60 = 60) ∧
    estimateDuration 600 "land" = 10 := by
  refine ⟨fun s d rt => rfl, fun dk mode => rfl, by simp [speeds], by simp [speeds],
    by simp [speeds], fun rt h => by rw [h]; rfl, ?_⟩
  have h : (600:ℝ) / 60 + 1 / 2 = 10.5 := by norm_num
  simp [estimateDuration, speeds, jsOrNum, jsRound, h]
  norm_num [Int.floor_eq_iff]

/-- Witness for C3: a mode absent from the speed table falls back to 60 km/h. -/
theorem estimateDuration_formula_witness : jsOrNum (speeds "truck") 60 = 60 :=
  estimateDuration_formula.2.2.2.2.2.1 "truck" (by simp [speeds])

/-- C5: `calculateDistance` is symmetric in its two coordinate pairs and is
zero on identical points. -/
theorem calculateDistance_symm_and_diag_zero :
    (∀ lat1 lon1 lat2 lon2 : ℝ,
      calculateDistance lat1 lon1 lat2 lon2 = calculateDistance lat2 lon2 lat1 lon1) ∧
    (∀ lat lon : ℝ, calculateDistance lat lon lat lon = 0) := by
  have hsin : ∀ p q : ℝ, Real.sin (deg2rad (p - q) / 2) = -Real.sin (deg2rad (q - p) / 2) := by
    intro p q
    rw [show deg2rad (p - q) / 2 = -(deg2rad (q - p) / 2) by unfold deg2rad; ring, Real.sin_neg]
  constructor
  · intro lat1 lon1 lat2 lon2
    have ha : haversineA lat1 lon1 lat2 lon2 = haversineA lat2 lon2 lat1 lon1 := by
      simp only [haversineA]
      rw [hsin lat2 lat1, hsin lon2 lon1]
      ring
    simp only [calculateDistance, ha]
  · intro lat lon
    have ha : haversineA lat lon lat lon = 0 := by
      simp [haversineA, deg2rad]
    simp [calculateDistance, ha, Real.sqrt_one]
    norm_num [atan2]

/-- C6: a mode absent from the rate table is charged exactly like land: for
every coordinate state, optional distance, and weight, the cost for an
unrecognized mode equals the cost for `"land"`. -/
theorem cost_unknown_mode_fallback :
    ∀ (src dst : Option (ℝ × ℝ)) (dist : Option ℝ) (m : String) (w : ℝ), rates m = none →
      calculateEstimatedCost src dst dist m w = calculateEstimatedCost src dst dist "land" w := by
  intro src dst dist m w hm
  simp only [calculateEstimatedCost]
  rw [hm]
  norm_num [rates, jsOrNum]

/-- Witness for C6: `"unknown-mode"` is charged as land. -/
theorem cost_unknown_mode_fallback_witness :
    calculateEstimatedCost none none (some 1) "unknown-mode" 100 =
      calculateEstimatedCost none none (some 1) "land" 100 :=
  cost_unknown_mode_fallback none none (some 1) "unknown-mode" 100 (by simp [rates])

/-- C7 counterexample: with a negative cargo weight the estimated cost is a
negative integer: 1000 km by land at weight -100 costs -1500. -/
theorem negative_weight_negative_cost_counterexample :
    calculateEstimatedCost none none (some 1000) "land" (-100) = some (-1500) ∧
    (-1500 : ℤ) < 0 := by
  constructor
  · have h : (1000:ℝ) * 1.5 * (-100 / 100) + 1 / 2 = -1499.5 := by norm_num
    simp [calculateEstimatedCost, rates, jsOrNum, jsRound, h]
    norm_num [Int.floor_eq_iff]
  · norm_num

/-- C7 (amended to non-negative weights): for every pair of coordinates, every
mode and every non-negative cargo weight, the derived estimate fields are
non-negative: the distance is a non-negative real and cost and duration are
non-negative integers. -/
theorem estimate_fields_nonneg :
    ∀ (a b : ℝ × ℝ) (t rt : String) (w : ℝ), 0 ≤ w →
      0 ≤ calculateDistance a.1 a.2 b.1 b.2 ∧
      (∀ c : ℤ, calculateEstimatedCost (some a) (some b) none t w = some c → 0 ≤ c) ∧
      (∀ u : ℤ, calculateEstimatedDuration (some a) (some b) rt = some u → 0 ≤ u) := by
  intro a b t rt w hw
  have hdist := calculateDistance_nonneg a.1 a.2 b.1 b.2
  refine ⟨hdist, fun c hc => ?_, fun u hu => ?_⟩
  · simp [calculateEstimatedCost] at hc
    rw [← hc]
    exact jsRound_nonneg (mul_nonneg (mul_nonneg hdist (jsOrNum_rates_pos t).le)
      (div_nonneg hw (by norm_num)))
  · simp [calculateEstimatedDuration, estimateDuration] at hu
    rw [← hu]
    exact jsRound_nonneg (div_nonneg hdist (jsOrNum_speeds_pos rt).le)

/-- Witness for C7: the estimate for two fixed points at weight 100. -/
theorem estimate_fields_nonneg_witness : 0 ≤ calculateDistance 0 0 0 0 := by
  have h := (estimate_fields_nonneg (0, 0) (0, 0) "land" "land" 100 (by norm_num)).1
  simpa using h

/-- C8: every estimator function is total: the duration and cost functions
return a defined value whenever their inputs are available, `classifyMode`
always returns one of the three modes, and the speed used as a divisor is
always positive (the speed table has no zero entries). -/
theorem estimator_totality_no_zero_speed :
    (∀ t, 0 < jsOrNum (speeds t) 60) ∧
    (∀ t v, speeds t = some v → 0 < v) ∧
    (∀ d : ℝ, classifyMode d = "air" ∨ classifyMode d = "sea-land" ∨ classifyMode d = "land") ∧
    (∀ (s d : ℝ × ℝ) (rt : String),
      (calculateEstimatedDuration (some s) (some d) rt).isSome = true) ∧
    (∀ (s d : ℝ × ℝ) (dist : Option ℝ) (t : String) (w : ℝ),
      (calculateEstimatedCost (some s) (some d) dist t w).isSome = true) ∧
    (∀ (src dst : Option (ℝ × ℝ)) (dd : ℝ) (t : String) (w : ℝ), dd ≠ 0 →
      (calculateEstimatedCost src dst (some dd) t w).isSome = true) := by
  refine ⟨jsOrNum_speeds_pos, fun t v hv => ?_, fun d => ?_, fun s d rt => rfl,
    fun s d dist t w => ?_, fun src dst dd t w hd => ?_⟩
  · unfold speeds at hv
    split_ifs at hv <;> simp_all <;> norm_num [← hv]
  · unfold classifyMode
    split_ifs <;> simp
  · simp [calculateEstimatedCost]
  · simp [calculateEstimatedCost, hd]

/-- Witness for C8: a cost with an explicit nonzero distance is defined even
with no coordinate state. -/
theorem estimator_totality_no_zero_speed_witness :
    (calculateEstimatedCost none none (some 5) "air" 100).isSome = true :=
  estimator_totality_no_zero_speed.2.2.2.2.2 none none 5 "air" 100 (by norm_num)

/-- C9: the mode `"air-land"` is a key of both the rate and the speed table,
priced and timed exactly like `"air"` (3.8 USD/km, 800 km/h), not through the
land fallback. -/
theorem air_land_priced_as_air :
    rates "air-land" = some 3.8 ∧ speeds "air-land" = some 800 ∧
    (∀ (src dst : Option (ℝ × ℝ)) (dist : Option ℝ) (w : ℝ),
      calculateEstimatedCost src dst dist "air-land" w =
        calculateEstimatedCost src dst dist "air" w) ∧
    (∀ (src dst : Option (ℝ × ℝ)),
      calculateEstimatedDuration src dst "air-land" = calculateEstimatedDuration src dst "air") ∧
    (∀ dk : ℝ, estimateDuration dk "air-land" = estimateDuration dk "air") ∧
    (∀ (dk w : ℝ), estimateCost dk "air-land" w = estimateCost dk "air" w) := by
  refine ⟨by simp [rates], by simp [speeds], fun src dst dist w => ?_, fun src dst => ?_,
    fun dk => ?_, fun dk w => ?_⟩
  · simp [calculateEstimatedCost, rates]
  · rcases src with _ | s <;> rcases dst with _ | d <;>
      simp [calculateEstimatedDuration, estimateDuration, speeds]
  · simp [estimateDuration, speeds]
  · simp [estimateCost, rates]

/-- C10: a distance of exactly 0 is treated as absent at the cost interface:
with either coordinate state unset, `calculateEstimatedCost` returns `none`
both for distance 0 and for an omitted distance, and
`calculateEstimatedDuration` returns `none` whenever either coordinate state
is unset. -/
theorem zero_distance_treated_as_absent :
    (∀ (src dst : Option (ℝ × ℝ)) (t : String) (w : ℝ), src = none ∨ dst = none →
      calculateEstimatedCost src dst (some 0) t w = none ∧
      calculateEstimatedCost src dst none t w = none) ∧
    (∀ (src dst : Option (ℝ × ℝ)) (rt : String), src = none ∨ dst = none →
      calculateEstimatedDuration src dst rt = none) := by
  constructor
  · intro src dst t w h
    constructor <;> simp [calculateEstimatedCost, h]
  · intro src dst rt h
    rcases h with h | h <;> subst h
    · rfl
    · rcases src with _ | s <;> rfl

/-- Witness for C10: with no source coordinates, distance 0 yields `none`. -/
theorem zero_distance_treated_as_absent_witness :
    calculateEstimatedCost none (some ((1 : ℝ), (2 : ℝ))) (some 0) "land" 100 = none :=
  (zero_distance_treated_as_absent.1 none (some (1, 2)) "land" 100 (Or.inl rfl)).1

set_option maxHeartbeats 1000000 in
/-- C4: `calculateDistance` implements the Haversine great-circle formula with
Earth radius 6371 km; the distance between New York (40.7128, -74.0060) and
Los Angeles (34.0522, -118.2437) lies within 10 km of 3936 km. -/
theorem distance_nyc_la_within_10_of_3936 :
    |calculateDistance 40.7128 (-74.0060) 34.0522 (-118.2437) - 3936| ≤ 10 := by
  have hA := haversineA_nyla_bounds
  simp only [calculateDistance]
  set a := haversineA 40.7128 (-74.0060) 34.0522 (-118.2437) with ha_def
  have ha0 : (0:ℝ) ≤ a := by linarith [hA.1]
  have ha1 : a < 1 := by linarith [hA.2]
  have hx : 0 < Real.sqrt (1 - a) := Real.sqrt_pos.mpr (by linarith)
  have hatan : atan2 (Real.sqrt a) (Real.sqrt (1 - a)) = Real.arcsin (Real.sqrt a) := by
    unfold atan2
    rw [if_pos hx]
    have hlt1 : Real.sqrt a < 1 := by
      have h := Real.sqrt_lt_sqrt ha0 ha1
      simpa [Real.sqrt_one] using h
    have hmem : Real.sqrt a ∈ Set.Ioo (-(1:ℝ)) 1 :=
      Set.mem_Ioo.mpr ⟨by linarith [Real.sqrt_nonneg a], hlt1⟩
    rw [Real.arcsin_eq_arctan hmem, Real.sq_sqrt ha0]
  rw [hatan]
  have hs1 : (0.3037:ℝ) ≤ Real.sqrt a := by
    have h1 : ((0.3037:ℝ))^2 ≤ a := by nlinarith [hA.1]
    calc (0.3037:ℝ) = Real.sqrt (0.3037^2) := (Real.sqrt_sq (by norm_num)).symm
      _ ≤ Real.sqrt a := Real.sqrt_le_sqrt h1
  have hs2 : Real.sqrt a ≤ 0.3042 := by
    have h1 : a ≤ ((0.3042:ℝ))^2 := by nlinarith [hA.2]
    calc Real.sqrt a ≤ Real.sqrt (0.3042^2) := Real.sqrt_le_sqrt h1
      _ = 0.3042 := Real.sqrt_sq (by norm_num)
  have hs0771 := sin_rat_bounds 0.0771 0.07702177 0.07702546 (by norm_num) (by norm_num) (by norm_num) (by norm_num)
  have hc1542 := cos_double_bounds 0.9881341 0.9881353 hs0771.1 hs0771.2 (by norm_num) (by norm_num) (by norm_num)
  rw [show (2:ℝ) * ((0.0771:ℝ)) = (0.1542:ℝ) from by norm_num] at hc1542
  have hs1542 := sin_rat_bounds 0.1542 0.15355946 0.15361837 (by norm_num) (by norm_num) (by norm_num) (by norm_num)
  have hs3084 := sin_double_bounds 0.3034746 0.3035915 hs1542.1 hs1542.2 hc1542.1 hc1542.2
    (by norm_num) (by norm_num) (by norm_num) (by norm_num)
  rw [show (2:ℝ) * ((0.1542:ℝ)) = (0.3084:ℝ) from by norm_num] at hs3084
  have hs07735 := sin_rat_bounds 0.07735 0.077271 0.07727474 (by norm_num) (by norm_num) (by norm_num) (by norm_num)
  have hc1547 := cos_double_bounds 0.9880572 0.9880584 hs07735.1 hs07735.2 (by norm_num) (by norm_num) (by norm_num)
  rw [show (2:ℝ) * ((0.07735:ℝ)) = (0.1547:ℝ) from by norm_num] at hc1547
  have hs1547 := sin_rat_bounds 0.1547 0.15405312 0.15411279 (by norm_num) (by norm_num) (by norm_num) (by norm_num)
  have hs3094 := sin_double_bounds 0.3044265 0.3045449 hs1547.1 hs1547.2 hc1547.1 hc1547.2
    (by norm_num) (by norm_num) (by norm_num) (by norm_num)
  rw [show (2:ℝ) * ((0.1547:ℝ)) = (0.3094:ℝ) from by norm_num] at hs3094
  have hpi2 : (0.3094:ℝ) ≤ Real.pi / 2 := by linarith [Real.pi_gt_three]
  have hθ1 : (0.3084:ℝ) ≤ Real.arcsin (Real.sqrt a) := by
    have hsin : Real.sin 0.3084 ≤ Real.sqrt a := le_trans (le_trans hs3084.2 (by norm_num)) hs1
    calc (0.3084:ℝ) = Real.arcsin (Real.sin 0.3084) :=
        (Real.arcsin_sin (by linarith [Real.pi_pos]) (by linarith)).symm
      _ ≤ Real.arcsin (Real.sqrt a) := Real.monotone_arcsin hsin
  have hθ2 : Real.arcsin (Real.sqrt a) ≤ 0.3094 := by
    have hsin : Real.sqrt a ≤ Real.sin 0.3094 := le_trans hs2 (le_trans (by norm_num) hs3094.1)
    calc Real.arcsin (Real.sqrt a) ≤ Real.arcsin (Real.sin 0.3094) := Real.monotone_arcsin hsin
      _ = 0.3094 := Real.arcsin_sin (by linarith [Real.pi_pos]) hpi2
  rw [abs_le]
  constructor <;> linarith

end RouteSync
